import Mathlib

/-!
Verification of the attendance-system orchestration layer
(model lifecycle, gallery construction, identity matching,
frame-detection loop, session aggregation) against its source.

Embedding conventions:
* Embeddings (face descriptors) are lists of rationals.  The source
  compares Euclidean distances (`Math.sqrt` of a sum of squares) only
  with `<` against other distances or against a fixed threshold; since
  `Real.sqrt` is strictly monotone on nonnegative reals, every such
  comparison of distances is equivalent to the comparison of their
  squares.  We therefore represent every distance by its square
  (fields and constants named `...Sq`), keeping all definitions
  computable and all propositions decidable.  Thresholds are embedded
  by their squares as well: 0.5 ↦ 1/4, 0.6 ↦ 9/25, 0.7 ↦ 49/100.
* Stateful component code is embedded as explicit step functions on
  small state records; asynchronous scheduling is the cooperative
  single-threaded model, traces being lists of events folded through
  the step function.
-/

namespace Attendance

/-- Structure `Student` from `src/types/index.ts` restricted to the fields the
matching and session code reads: `id`, `name`, `studentId`,
`consentGiven` and the optional stored `faceDescriptor`
(`number[]`, embedded as `List ℚ`). -/
structure Student where
  id : String
  name : String
  studentId : String
  consentGiven : Bool
  faceDescriptor : Option (List ℚ)
deriving DecidableEq

/-- Squared Euclidean distance between two descriptors: the source's
`euclideanDistance` (face-api.js) is the square root of this sum; all
uses in the repository compare it with `<`, so the square determines
every observable outcome. -/
def distSq (a b : List ℚ) : ℚ :=
  (List.zipWith (fun x y => (x - y) ^ 2) a b).sum

/-- Embedding of `faceapi.LabeledFaceDescriptors(label, [descriptor])`: every
construction site in the repository passes a one-element descriptor
array, so we carry the unique descriptor directly. -/
structure LabeledFaceDescriptors where
  label : String
  descriptor : List ℚ
deriving DecidableEq

/-- Embedding of `faceapi.FaceMatcher(labeledDescriptors, distanceThreshold)`, with
the threshold stored squared. -/
structure FaceMatcher where
  labeledDescriptors : List LabeledFaceDescriptors
  distanceThresholdSq : ℚ
deriving DecidableEq

/-- One `FaceMatch` result (`label`, `distance`), distance squared. -/
structure FaceMatch where
  label : String
  distanceSq : ℚ
deriving DecidableEq

/-- The `reduce` step of face-api's `matchDescriptor`:
`(best, next) => best.distance < next.distance ? best : next`. -/
def betterMatch (best next : FaceMatch) : FaceMatch :=
  if best.distanceSq < next.distanceSq then best else next

/-- Embedding of `FaceMatcher.matchDescriptor`: distance of the query to each
labeled descriptor, reduced to the closest one.  `reduce` on an empty
array throws in JS, embedded as `none`; every matcher built by this
repository is non-empty. -/
def matchDescriptor (m : FaceMatcher) (query : List ℚ) : Option FaceMatch :=
  match m.labeledDescriptors.map
      (fun l => FaceMatch.mk l.label (distSq query l.descriptor)) with
  | [] => none
  | x :: xs => some (xs.foldl betterMatch x)

/-- Embedding of `FaceMatcher.findBestMatch`: the closest match if its distance is
strictly below the matcher's threshold, otherwise the label
`"unknown"` carrying the same distance. -/
def findBestMatch (m : FaceMatcher) (query : List ℚ) : Option FaceMatch :=
  (matchDescriptor m query).map (fun best =>
    if best.distanceSq < m.distanceThresholdSq then best
    else FaceMatch.mk "unknown" best.distanceSq)

/-- The decision `const isMatch = result.distance < MATCH_THRESHOLD`
(LiveFeed.tsx line 380, and the analogous comparisons in
`detectFaces`), threshold squared. -/
def isMatch (thresholdSq : ℚ) (r : FaceMatch) : Bool :=
  decide (r.distanceSq < thresholdSq)

/-- Eligibility filter of `createFaceMatcher`
(`src/services/faceRecognitionService.ts` lines 182-186):
`student.consentGiven && student.faceDescriptor &&
student.faceDescriptor.length === 128`. -/
def eligibleForMatcher (s : Student) : Bool :=
  s.consentGiven &&
    (match s.faceDescriptor with
     | some d => decide (d.length = 128)
     | none => false)

/-- Function `createFaceMatcher(students)` (faceRecognitionService.ts lines
179-221): filters eligible students, returns `null` (`none`) when no
student remains, otherwise a matcher labelled by student name over the
stored descriptors, built with distance threshold 0.5 (squared 1/4). -/
def createFaceMatcher (students : List Student) : Option FaceMatcher :=
  let studentsWithDescriptors := students.filter eligibleForMatcher
  if studentsWithDescriptors.isEmpty then none
  else some
    { labeledDescriptors := studentsWithDescriptors.map
        (fun s => LabeledFaceDescriptors.mk s.name (s.faceDescriptor.getD []))
      distanceThresholdSq := 1/4 }

section ArgminLemmas

theorem betterMatch_cases (x y : FaceMatch) :
    betterMatch x y = x ∨ betterMatch x y = y := by
  unfold betterMatch
  by_cases h : x.distanceSq < y.distanceSq <;> simp [h]

theorem betterMatch_le_left (x y : FaceMatch) :
    (betterMatch x y).distanceSq ≤ x.distanceSq := by
  unfold betterMatch
  by_cases h : x.distanceSq < y.distanceSq <;> simp [h]
  exact le_of_not_lt h

theorem betterMatch_le_right (x y : FaceMatch) :
    (betterMatch x y).distanceSq ≤ y.distanceSq := by
  unfold betterMatch
  by_cases h : x.distanceSq < y.distanceSq <;> simp [h]
  exact le_of_lt h

theorem foldl_betterMatch_mem (xs : List FaceMatch) :
    ∀ x : FaceMatch, List.foldl betterMatch x xs ∈ x :: xs := by
  induction xs with
  | nil => intro x; simp
  | cons y ys ih =>
    intro x
    have h := ih (betterMatch x y)
    simp only [List.foldl_cons, List.mem_cons]
    rcases List.mem_cons.mp h with h1 | h1
    · rcases betterMatch_cases x y with hc | hc
      · exact Or.inl (h1.trans hc)
      · exact Or.inr (Or.inl (h1.trans hc))
    · exact Or.inr (Or.inr h1)

theorem foldl_betterMatch_le (xs : List FaceMatch) :
    ∀ x y : FaceMatch, y ∈ x :: xs →
      (List.foldl betterMatch x xs).distanceSq ≤ y.distanceSq := by
  induction xs with
  | nil =>
    intro x y hy
    rcases List.mem_cons.mp hy with h1 | h1
    · subst h1; simp
    · simp at h1
  | cons z zs ih =>
    intro x y hy
    simp only [List.foldl_cons]
    have hh : (List.foldl betterMatch (betterMatch x z) zs).distanceSq ≤
        (betterMatch x z).distanceSq :=
      ih (betterMatch x z) (betterMatch x z) (List.mem_cons_self _ _)
    rcases List.mem_cons.mp hy with h1 | h1
    · rw [h1]
      exact le_trans hh (betterMatch_le_left x z)
    · rcases List.mem_cons.mp h1 with h2 | h2
      · rw [h2]
        exact le_trans hh (betterMatch_le_right x z)
      · exact ih (betterMatch x z) y (List.mem_cons_of_mem _ h2)

/-- Core characterisation of `findBestMatch` over a non-empty matcher:
the result exists, its distance is attained by a gallery entry and is a
lower bound for all of them; below the matcher threshold the result
carries the label of a closest gallery entry, otherwise `"unknown"`. -/
theorem findBestMatch_spec (m : FaceMatcher) (query : List ℚ)
    (hne : m.labeledDescriptors ≠ []) :
    ∃ r : FaceMatch, findBestMatch m query = some r ∧
      (∃ l ∈ m.labeledDescriptors, r.distanceSq = distSq query l.descriptor) ∧
      (∀ l ∈ m.labeledDescriptors, r.distanceSq ≤ distSq query l.descriptor) ∧
      (r.distanceSq < m.distanceThresholdSq →
        ∃ l ∈ m.labeledDescriptors, r.label = l.label ∧
          r.distanceSq = distSq query l.descriptor) ∧
      (m.distanceThresholdSq ≤ r.distanceSq → r.label = "unknown") := by
  rcases hl : m.labeledDescriptors with _ | ⟨l₀, ls⟩
  · exact absurd hl hne
  · have hf : ∀ l : LabeledFaceDescriptors,
        FaceMatch.mk l.label (distSq query l.descriptor) =
        (fun l => FaceMatch.mk l.label (distSq query l.descriptor)) l :=
      fun _ => rfl
    let f : LabeledFaceDescriptors → FaceMatch :=
      fun l => FaceMatch.mk l.label (distSq query l.descriptor)
    let best : FaceMatch := List.foldl betterMatch (f l₀) (ls.map f)
    have hmd : matchDescriptor m query = some best := by
      unfold matchDescriptor
      rw [hl]
      rfl
    have hmem : best ∈ f l₀ :: ls.map f := foldl_betterMatch_mem (ls.map f) (f l₀)
    have hmem' : ∃ l ∈ l₀ :: ls, best = f l := by
      rcases List.mem_cons.mp hmem with h | h
      · exact ⟨l₀, List.mem_cons_self _ _, h⟩
      · rcases List.mem_map.mp h with ⟨l, hlmem, hfl⟩
        exact ⟨l, List.mem_cons_of_mem _ hlmem, hfl.symm⟩
    have hle : ∀ l ∈ l₀ :: ls, best.distanceSq ≤ distSq query l.descriptor := by
      intro l hlm
      have hmf : f l ∈ f l₀ :: ls.map f := by
        rcases List.mem_cons.mp hlm with h | h
        · subst h; exact List.mem_cons_self _ _
        · exact List.mem_cons_of_mem _ (List.mem_map_of_mem f h)
      exact foldl_betterMatch_le (ls.map f) (f l₀) (f l) hmf
    by_cases hth : best.distanceSq < m.distanceThresholdSq
    · refine ⟨best, ?_, ?_, ?_, ?_, ?_⟩
      · unfold findBestMatch
        rw [hmd]
        simp [hth]
      · rcases hmem' with ⟨l, hlm, hbl⟩
        exact ⟨l, hlm, by rw [hbl]⟩
      · intro l hlm
        exact hle l hlm
      · intro _
        rcases hmem' with ⟨l, hlm, hbl⟩
        exact ⟨l, hlm, by rw [hbl], by rw [hbl]⟩
      · intro hge
        exact absurd hth (not_lt.mpr hge)
    · refine ⟨FaceMatch.mk "unknown" best.distanceSq, ?_, ?_, ?_, ?_, ?_⟩
      · unfold findBestMatch
        rw [hmd]
        simp [hth]
      · rcases hmem' with ⟨l, hlm, hbl⟩
        exact ⟨l, hlm, by rw [hbl]⟩
      · intro l hlm
        exact hle l hlm
      · intro habs
        exact absurd habs hth
      · intro _
        rfl

end ArgminLemmas

/-- Constant `MATCH_THRESHOLD = 0.7` of `LiveFeed.tsx` line 359, squared. -/
def MATCH_THRESHOLD_Sq : ℚ := 49/100

/-- Eligibility filter of the LiveFeed pass
(`LiveFeed.tsx` line 331): `student.consentGiven && student.faceDescriptor`
(truthiness of the stored descriptor; its length is not checked here). -/
def hasFaceData (s : Student) : Bool :=
  s.consentGiven && s.faceDescriptor.isSome

/-- Output of one frame pass of `runFaceDetection`
(`LiveFeed.tsx` lines 329-412). -/
structure PassOutput where
  /-- One entry per drawn box: the match result and whether the box
  colour is green (`boxColor: isMatch ? 'green' : 'red'`, line 383). -/
  draws : List (FaceMatch × Bool)
  /-- The `detectedStudents` list after the pass. -/
  detectedStudents : List Student
  /-- Names for which a "Detected student" notification was emitted
  (lines 394-402). -/
  events : List String
deriving DecidableEq

/-- One `result` handler of the `results.forEach` in `runFaceDetection`
(`LiveFeed.tsx` lines 378-405).  The membership guard reads the
`detectedStudents` closure variable captured at the start of the pass
(`!detectedStudents.some(s => s.id === student.id)`, line 390), while
the append is the functional update `prev => [...prev, student]`
(line 391); the two operate on different lists within one pass,
exactly as in the source. -/
def passStep (students priorDetected : List Student)
    (acc : List Student × List String) (r : FaceMatch) :
    List Student × List String :=
  if isMatch MATCH_THRESHOLD_Sq r && !(r.label == "unknown") then
    match students.find? (fun s => s.name == r.label) with
    | some student =>
      if priorDetected.any (fun s => s.id == student.id) then acc
      else (acc.1 ++ [student], acc.2 ++ [student.name])
    | none => acc
  else acc

/-- One frame pass of `runFaceDetection` (`LiveFeed.tsx` lines
329-412): filter students with consent and face data; if none, only
the raw detections are drawn and nothing is recognised; otherwise
build a `FaceMatcher` with `MATCH_THRESHOLD` (0.7, line 361), find the
best match of each detection descriptor, draw each box green iff
`result.distance < MATCH_THRESHOLD`, and append the matched students
not found in the `detectedStudents` list captured at pass start. -/
def runFaceDetectionPass (students priorDetected : List Student)
    (detections : List (List ℚ)) : PassOutput :=
  let studentsWithFaces := students.filter hasFaceData
  if studentsWithFaces.isEmpty then
    PassOutput.mk [] priorDetected []
  else
    let faceMatcher : FaceMatcher :=
      { labeledDescriptors := studentsWithFaces.map
          (fun s => LabeledFaceDescriptors.mk s.name (s.faceDescriptor.getD []))
        distanceThresholdSq := MATCH_THRESHOLD_Sq }
    let results := detections.filterMap (fun d => findBestMatch faceMatcher d)
    let draws := results.map (fun r => (r, isMatch MATCH_THRESHOLD_Sq r))
    let z := results.foldl (passStep students priorDetected) (priorDetected, [])
    PassOutput.mk draws z.1 z.2

/-- Function `detectFaces` (`src/services/faceRecognitionService.ts` lines
706-753), the parts observable per detection: each detection
descriptor is matched with the *passed-in* matcher's own threshold;
each box is drawn green iff `result.distance < recognitionThreshold`
(line 740, default 0.6); the returned recognised students are those
results with `result.distance < recognitionThreshold &&
result.label !== 'unknown'` resolved by name (lines 746-751).
Returns (draws, recognisedStudents); thresholds squared. -/
def detectFaces (faceMatcher : FaceMatcher) (students : List Student)
    (recognitionThresholdSq : ℚ) (detections : List (List ℚ)) :
    List (FaceMatch × Bool) × List Student :=
  let results := detections.filterMap (fun d => findBestMatch faceMatcher d)
  let draws := results.map
    (fun r => (r, decide (r.distanceSq < recognitionThresholdSq)))
  let recognizedStudents :=
    (results.filter (fun r =>
        decide (r.distanceSq < recognitionThresholdSq) &&
          !(r.label == "unknown"))).filterMap
      (fun r => students.find? (fun s => s.name == r.label))
  (draws, recognizedStudents)

/-! ### Session aggregation and commit (LiveFeed `handlePostAttendance`,
AppContext `addBulkAttendance`) -/

/-- Record type `AttendanceRecord` from `src/types/index.ts`. -/
structure AttendanceRecord where
  id : String
  studentId : String
  courseId : String
  timestamp : String
  status : String
  captureMethod : String
deriving DecidableEq

/-- Type `Omit<AttendanceRecord, 'id'>`, the input of `addBulkAttendance`. -/
structure AttendanceRecordInput where
  studentId : String
  courseId : String
  timestamp : String
  status : String
  captureMethod : String
deriving DecidableEq

/-- Function `addBulkAttendance(records)` (`src/context/AppContext.tsx` lines
164-179): gives each input record a fresh id (`uuidv4()`, modelled by
the supplied `freshIds` stream) and appends all of them to
`attendanceRecords`. -/
def addBulkAttendance (prevRecords : List AttendanceRecord)
    (records : List AttendanceRecordInput) (freshIds : List String) :
    List AttendanceRecord :=
  let newRecords := (records.zip freshIds).map (fun p =>
    AttendanceRecord.mk p.2 p.1.studentId p.1.courseId p.1.timestamp
      p.1.status p.1.captureMethod)
  prevRecords ++ newRecords

/-- The LiveFeed state read and written by `handlePostAttendance`. -/
structure CommitState where
  selectedCourse : String
  detectedStudents : List Student
  isTracking : Bool
  /-- The app-wide attendance record store (`AppContext`). -/
  attendanceRecords : List AttendanceRecord
deriving DecidableEq

/-- Result of `handlePostAttendance` beside the state: whether the
missing-course alert fired, and the log messages emitted. -/
structure CommitOutcome where
  state : CommitState
  alerted : Bool
  logs : List String
deriving DecidableEq

/-- Function `handlePostAttendance` (`LiveFeed.tsx` lines 484-510): with no
course selected it alerts and returns, changing nothing; otherwise it
logs "Posting attendance" to the console, emits a system log naming
the number of detected students, clears `detectedStudents` and stops
tracking.  No call to `addBulkAttendance`/`addAttendanceRecord` (or
any record construction) occurs anywhere in the function, so
`attendanceRecords` is left unchanged on every path. -/
def handlePostAttendance (st : CommitState) : CommitOutcome :=
  if st.selectedCourse == "" then
    CommitOutcome.mk st true []
  else
    CommitOutcome.mk
      { st with detectedStudents := [], isTracking := false }
      false
      ["Posted attendance for " ++ toString st.detectedStudents.length
        ++ " students"]

/-! ### Model lifecycle: degraded fallback (faceRecognitionService,
second revision, lines 542-653) -/

/-- The mutable face-api net state the loader manipulates: the three
`isLoaded` flags plus whether `detectAllFaces` has been replaced by
the synthetic mock implementation. -/
structure FaceApiNets where
  ssdMobilenetv1Loaded : Bool
  faceLandmark68NetLoaded : Bool
  faceRecognitionNetLoaded : Bool
  detectAllFacesMocked : Bool
deriving DecidableEq

/-- Function `areModelsLoaded()` (faceRecognitionService lines 637-644):
conjunction of the three nets' `isLoaded` flags. -/
def areModelsLoaded (nets : FaceApiNets) : Bool :=
  nets.ssdMobilenetv1Loaded && nets.faceLandmark68NetLoaded &&
    nets.faceRecognitionNetLoaded

/-- Function `createMockModels()` (faceRecognitionService lines 586-635):
replaces `detectAllFaces` with a generator of synthetic detections and
marks all three nets as loaded via `safelySetModelAsLoaded`. -/
def createMockModels (_nets : FaceApiNets) : FaceApiNets :=
  FaceApiNets.mk true true true true

/-- Function `useAlternativeLoader(baseUrl)` (faceRecognitionService lines
542-583): tries the patched real load; on failure calls
`createMockModels()`; in either case it returns `true` (the outer
catch likewise calls `createMockModels()` and returns `true`,
"to continue with mock detection").  `realLoadSucceeds` stands for
whether the patched `load` calls succeed.  Returns (reported success,
resulting net state). -/
def useAlternativeLoader (realLoadSucceeds : Bool) (nets : FaceApiNets) :
    Bool × FaceApiNets :=
  if realLoadSucceeds then
    (true, { nets with ssdMobilenetv1Loaded := true,
                       faceLandmark68NetLoaded := true,
                       faceRecognitionNetLoaded := true })
  else
    (true, createMockModels nets)

/-! ### Frame-detection loop scheduling (LiveFeed `runFaceDetection`,
lines 292-449)

`processingFrame` is React `useState` state: the guard at line 307
reads the value the effect instance's render closure *captured*, not
the current state; `setProcessingFrame` (lines 311, 430) takes effect
at a later commit; and the effect re-runs on every `processingFrame`
change (dependency list, line 449), scheduling a fresh
`requestAnimationFrame` callback (line 441) whose closure captures the
newly committed value.  The model therefore tags every pending
animation-frame callback with the `processingFrame` value its closure
captured. -/

/-- Scheduling state of the detection loop.  `processingFrame` is the
committed React state (line 31).  `pending` lists the pending
animation-frame callbacks in firing order, each entry being the
`processingFrame` value captured by the closure of the effect instance
that owns the callback — the value line 307's guard will read.
`inFlight` counts detection passes begun (line 311) and not yet
completed (line 430). -/
structure RafLoopState where
  processingFrame : Bool
  pending : List Bool
  inFlight : Nat
deriving DecidableEq

/-- Scheduler events: the next pending callback fires, or the awaited
detection of an in-flight pass resolves and its continuation runs. -/
inductive RafEvent where
  | fire
  | complete
deriving DecidableEq

/-- One scheduling step of the loop, with React's closure semantics.

`fire`: the head pending callback invokes `runFaceDetection`.  Its
guard (line 307) reads the `processingFrame` value captured by its own
closure.  If that captured value is `true` the callback returns at
once: the frame is dropped and nothing is scheduled (the early return
skips the tail reschedule at lines 434-437).  If it is `false` a pass
begins regardless of the current committed state:
`setProcessingFrame(true)` (line 311) commits, the effect re-runs
(line 449) and its new instance schedules a fresh callback (line 441)
capturing the committed `true`.

`complete`: an in-flight pass resolves.  Its `finally` commits
`setProcessingFrame(false)` (line 430); the pass's tail schedules its
own closure's callback again (line 436) — a closure that captured
`processingFrame = false`, else the guard would not have let the pass
start — and the effect re-run triggered by the commit schedules a
second callback (line 441) capturing the newly committed `false`.

`cancelAnimationFrame` in the effect cleanup (lines 443-448) is not
modelled: each cleanup cancels only the id last stored in its own
instance's `requestId`.  A pass's tail callback (line 436) is stored
in the `requestId` of the instance whose tick started the pass, an
instance the commit of line 311 has already torn down, so no cleanup
ever reaches it; and a live instance's own callback either fires
before the commit that tears the instance down (callbacks pending in
the same animation frame run before React commits and cleans up) or is
cancelled — cancelling it only removes a pending entry and never
starts a pass.  In the schedule of `C5_overlapping_passes` every
cleanup is a no-op on an already-fired id. -/
def rafStep (s : RafLoopState) : RafEvent → RafLoopState
  | RafEvent.fire =>
    match s.pending with
    | [] => s
    | captured :: rest =>
      if captured then
        { s with pending := rest }
      else
        RafLoopState.mk true (rest ++ [true]) (s.inFlight + 1)
  | RafEvent.complete =>
    if s.inFlight = 0 then s
    else
      RafLoopState.mk false (s.pending ++ [false, false]) (s.inFlight - 1)

/-- The loop just after the detection effect mounts with tracking
active: the effect body's initial `requestAnimationFrame` (line 441)
has scheduled one callback whose closure captured
`processingFrame = false`. -/
def initialRafState : RafLoopState := RafLoopState.mk false [false] 0

/-- A schedule folded through `rafStep`. -/
def rafRun (s : RafLoopState) (events : List RafEvent) : RafLoopState :=
  events.foldl rafStep s

/-! ### Pass failure handling (LiveFeed lines 413-431) -/

/-- The module-level flags `modelsLoaded` / `modelsLoading` (lines
27-28) plus a ghost count of artifact fetch sequences started. -/
structure InitState where
  modelsLoaded : Bool
  modelsLoading : Bool
  fetchCount : Nat
deriving DecidableEq

/-- Events at the suspension points of `initializeFaceApi`: a call
arriving, and the single in-flight load completing with success or
failure. -/
inductive InitEvent where
  | call
  | completeSuccess
  | completeFailure
deriving DecidableEq

/-- One step of `initializeFaceApi` (lines 60-84 and 155-171): a call
finding `areModelsLoaded()` true returns immediately (line 63); a call
finding `modelsLoading` true waits on the in-flight operation
(lines 69-81) and performs no fetch; otherwise it sets `modelsLoading`
and starts the one artifact fetch sequence (lines 84-129).  Completion
clears `modelsLoading` and records the outcome in `modelsLoaded`
(lines 134-135 on success, 157-158 in the catch). -/
def initFaceApiStep (s : InitState) : InitEvent → InitState
  | InitEvent.call =>
    if s.modelsLoaded then s
    else if s.modelsLoading then s
    else { s with modelsLoading := true, fetchCount := s.fetchCount + 1 }
  | InitEvent.completeSuccess =>
    if s.modelsLoading then
      InitState.mk true false s.fetchCount
    else s
  | InitEvent.completeFailure =>
    if s.modelsLoading then
      InitState.mk false false s.fetchCount
    else s

/-- The immediate return value of a call: the fast path returns `true`
synchronously when the models are already loaded; other callers only
obtain a result at completion time. -/
def initCallFastResult (s : InitState) : Option Bool :=
  if s.modelsLoaded then some true else none

/-- Module state at first import: nothing loaded, nothing loading. -/
def initialInitState : InitState := InitState.mk false false 0

/-- A sequence of call/completion events folded through
`initFaceApiStep`. -/
def initRun (s : InitState) (events : List InitEvent) : InitState :=
  events.foldl initFaceApiStep s

/-! ### Simulated detection (faceRecognitionService, second revision,
`mockFaceRecognition` lines 646-653) -/

/-- Function `mockFaceRecognition(students)`: filters students with
`consentGiven`, shuffles them (`sort(() => 0.5 - Math.random())`,
modelled by the `shuffle` parameter) and takes
`slice(0, Math.floor(Math.random() * 3) + 1)` of the result, the
random count `Math.floor(Math.random() * 3)` being the parameter
`k ∈ {0, 1, 2}`. -/
def mockFaceRecognition (students : List Student)
    (shuffle : List Student → List Student) (k : Nat) : List Student :=
  (shuffle (students.filter (fun s => s.consentGiven))).take (k + 1)

/-! ### Helper lemmas -/

section HelperLemmas

theorem distSq_self (a : List ℚ) : distSq a a = 0 := by
  induction a with
  | nil => rfl
  | cons x xs ih =>
    unfold distSq at ih ⊢
    simp [ih]

theorem distSq_replicate (n : ℕ) (x y : ℚ) :
    distSq (List.replicate n x) (List.replicate n y) = n * (x - y) ^ 2 := by
  induction n with
  | zero => simp [distSq]
  | succ k ih =>
    unfold distSq at ih ⊢
    simp only [List.replicate_succ, List.zipWith_cons_cons, List.sum_cons, ih]
    push_cast
    ring

/-- Characterisation of a successful `matchDescriptor`: the result is
the image of some gallery entry and its distance is a lower bound over
the gallery. -/
theorem matchDescriptor_spec (m : FaceMatcher) (query : List ℚ)
    (best : FaceMatch) (h : matchDescriptor m query = some best) :
    (∃ l ∈ m.labeledDescriptors,
        best = FaceMatch.mk l.label (distSq query l.descriptor)) ∧
    (∀ l ∈ m.labeledDescriptors, best.distanceSq ≤ distSq query l.descriptor) := by
  rcases hl : m.labeledDescriptors with _ | ⟨l₀, ls⟩
  · unfold matchDescriptor at h
    rw [hl] at h
    simp at h
  · let f : LabeledFaceDescriptors → FaceMatch :=
      fun l => FaceMatch.mk l.label (distSq query l.descriptor)
    have hbest : best = List.foldl betterMatch (f l₀) (ls.map f) := by
      unfold matchDescriptor at h
      rw [hl] at h
      simp only [List.map_cons, Option.some.injEq] at h
      exact h.symm
    have hmem : best ∈ f l₀ :: ls.map f := by
      rw [hbest]; exact foldl_betterMatch_mem (ls.map f) (f l₀)
    constructor
    · rcases List.mem_cons.mp hmem with h1 | h1
      · exact ⟨l₀, List.mem_cons_self _ _, h1⟩
      · rcases List.mem_map.mp h1 with ⟨l, hlmem, hfl⟩
        exact ⟨l, List.mem_cons_of_mem _ hlmem, hfl.symm⟩
    · intro l hlm
      have hmf : f l ∈ f l₀ :: ls.map f := by
        rcases List.mem_cons.mp hlm with h2 | h2
        · rw [h2]; exact List.mem_cons_self _ _
        · exact List.mem_cons_of_mem _ (List.mem_map_of_mem f h2)
      rw [hbest]
      exact foldl_betterMatch_le (ls.map f) (f l₀) (f l) hmf

/-- When no gallery entry is labelled `"unknown"`, a `findBestMatch`
result is labelled `"unknown"` exactly when its distance reached the
matcher's own threshold. -/
theorem findBestMatch_label_iff (m : FaceMatcher) (query : List ℚ)
    (r : FaceMatch) (hr : findBestMatch m query = some r)
    (hlab : ∀ l ∈ m.labeledDescriptors, l.label ≠ "unknown") :
    r.distanceSq < m.distanceThresholdSq ↔ r.label ≠ "unknown" := by
  unfold findBestMatch at hr
  rcases hmd : matchDescriptor m query with _ | best
  · rw [hmd] at hr; simp at hr
  · rw [hmd] at hr
    simp only [Option.map] at hr
    simp only [Option.some.injEq] at hr
    rcases (matchDescriptor_spec m query best hmd).1 with ⟨l, hlm, hbl⟩
    by_cases hth : best.distanceSq < m.distanceThresholdSq
    · rw [if_pos hth] at hr
      subst hr
      constructor
      · intro _
        rw [hbl]
        exact hlab l hlm
      · intro _
        exact hth
    · rw [if_neg hth] at hr
      subst hr
      constructor
      · intro habs
        exact absurd habs hth
      · intro habs
        exact absurd rfl habs

/-- Invariant of the model-initialisation state machine on
failure-free traces: exactly one fetch has started as soon as a load
is in flight or finished, none before. -/
def initInv (s : InitState) : Prop :=
  s.fetchCount = (if s.modelsLoading || s.modelsLoaded then 1 else 0)

theorem initStep_inv (s : InitState) (e : InitEvent)
    (he : e ≠ InitEvent.completeFailure) (h : initInv s) :
    initInv (initFaceApiStep s e) := by
  cases e with
  | call =>
    unfold initInv at h ⊢
    by_cases hl : s.modelsLoaded <;> by_cases hg : s.modelsLoading <;>
      simp [initFaceApiStep, hl, hg] <;> simp [hl, hg] at h <;> exact h
  | completeSuccess =>
    unfold initInv at h ⊢
    by_cases hg : s.modelsLoading
    · simp [initFaceApiStep, hg]
      simp [hg] at h
      exact h
    · simp [initFaceApiStep, hg]
      simp [hg] at h
      exact h
  | completeFailure => exact absurd rfl he

theorem initRun_inv (events : List InitEvent) :
    ∀ s : InitState, InitEvent.completeFailure ∉ events → initInv s →
      initInv (initRun s events) := by
  induction events with
  | nil => intro s _ h; exact h
  | cons e es ih =>
    intro s hne h
    have he : e ≠ InitEvent.completeFailure := by
      intro habs; exact hne (habs ▸ List.mem_cons_self _ _)
    have hes : InitEvent.completeFailure ∉ es := by
      intro habs; exact hne (List.mem_cons_of_mem _ habs)
    exact ih (initFaceApiStep s e) hes (initStep_inv s e he h)

end HelperLemmas

/-! ### Concrete fixtures for evaluations -/

/-- A consenting student with a 128-entry stored descriptor (all
zeros), used as gallery fixture. -/
def sarah : Student :=
  Student.mk "s1" "Sarah" "SJ1001" true (some (List.replicate 128 0))

/-- A second consenting student with a 128-entry descriptor. -/
def bob : Student :=
  Student.mk "s2" "Bob" "MW1002" true (some (List.replicate 128 1))

/-- A student who did not give consent. -/
def noConsentStudent : Student :=
  Student.mk "s3" "Cara" "CR1003" false (some (List.replicate 128 0))

/-- A consenting student whose stored descriptor has the wrong
length. -/
def shortDescriptorStudent : Student :=
  Student.mk "s4" "Dan" "DN1004" true (some [0])

/-- The matcher `createFaceMatcher [sarah]` evaluates to: one gallery
entry and the construction threshold 0.5 (squared 1/4). -/
def sarahMatcher : FaceMatcher :=
  FaceMatcher.mk [LabeledFaceDescriptors.mk "Sarah" (List.replicate 128 0)] (1/4)

/-- A detection descriptor whose squared Euclidean distance to
`sarah`'s reference embedding is 128/400 = 8/25 = 0.32, i.e. a
Euclidean distance of about 0.566: above the matcher threshold 0.5,
below the display threshold 0.6. -/
def midQuery : List ℚ := List.replicate 128 (1/20)

/-- A detection descriptor identical to `sarah`'s reference embedding
(Euclidean distance 0). -/
def zeroQuery : List ℚ := List.replicate 128 0

/-! ### Claims -/

/-- C1: for every detection embedding and every non-empty gallery, the
match returns a result whose distance is the global minimum of the
Euclidean distances to the gallery's reference embeddings; when it is
a match the returned label is the label of an entry attaining that
minimum; `isMatch` is true iff the minimal distance is strictly below
the threshold, and at or above the threshold the result is unmatched
(`"unknown"`, `isMatch` false) — the boundary is exclusive. -/
theorem C1_match_global_minimum (m : FaceMatcher) (query : List ℚ)
    (hne : m.labeledDescriptors ≠ []) :
    ∃ r : FaceMatch, findBestMatch m query = some r ∧
      (∃ l ∈ m.labeledDescriptors, r.distanceSq = distSq query l.descriptor) ∧
      (∀ l ∈ m.labeledDescriptors, r.distanceSq ≤ distSq query l.descriptor) ∧
      (isMatch m.distanceThresholdSq r = true ↔
        r.distanceSq < m.distanceThresholdSq) ∧
      (isMatch m.distanceThresholdSq r = true →
        ∃ l ∈ m.labeledDescriptors, r.label = l.label ∧
          r.distanceSq = distSq query l.descriptor) ∧
      (isMatch m.distanceThresholdSq r = false → r.label = "unknown") := by
  rcases findBestMatch_spec m query hne with
    ⟨r, hfind, hatt, hmin, hmatched, hunk⟩
  refine ⟨r, hfind, hatt, hmin, ?_, ?_, ?_⟩
  · unfold isMatch
    exact decide_eq_true_iff
  · intro h
    exact hmatched (decide_eq_true_iff.mp h)
  · intro h
    have hnot : ¬ r.distanceSq < m.distanceThresholdSq := by
      intro habs
      rw [show isMatch m.distanceThresholdSq r = true by
        unfold isMatch; exact decide_eq_true habs] at h
      simp at h
    exact hunk (not_lt.mp hnot)

/-- Witness for C1 at the gallery built from `sarah` and a detection
embedding equal to her reference embedding. -/
theorem C1_witness :
    ∃ r : FaceMatch, findBestMatch sarahMatcher zeroQuery = some r ∧
      (∃ l ∈ sarahMatcher.labeledDescriptors,
        r.distanceSq = distSq zeroQuery l.descriptor) ∧
      (∀ l ∈ sarahMatcher.labeledDescriptors,
        r.distanceSq ≤ distSq zeroQuery l.descriptor) ∧
      (isMatch sarahMatcher.distanceThresholdSq r = true ↔
        r.distanceSq < sarahMatcher.distanceThresholdSq) ∧
      (isMatch sarahMatcher.distanceThresholdSq r = true →
        ∃ l ∈ sarahMatcher.labeledDescriptors, r.label = l.label ∧
          r.distanceSq = distSq zeroQuery l.descriptor) ∧
      (isMatch sarahMatcher.distanceThresholdSq r = false →
        r.label = "unknown") :=
  C1_match_global_minimum sarahMatcher zeroQuery (by decide)

set_option maxRecDepth 8192 in
/-- C4 counterexample: `createFaceMatcher` builds its matcher with
threshold 0.5, while `detectFaces` colours boxes and filters
recognised students with its separate `recognitionThreshold` parameter
(default 0.6).  At a detection whose distance is about 0.566 (squared
8/25), one single pass labels the detection unmatched (`"unknown"`,
decided at 0.5) yet draws its box green (decided at 0.6): the decision
and the paired visual indication use two different threshold values,
refuting the claim. -/
theorem C4_counterexample :
    createFaceMatcher [sarah] = some sarahMatcher ∧
    (detectFaces sarahMatcher [sarah] (9/25) [midQuery]).1 =
      [(FaceMatch.mk "unknown" (8/25), true)] ∧
    (detectFaces sarahMatcher [sarah] (9/25) [midQuery]).2 = [] := by
  have hd : distSq midQuery (List.replicate 128 0) = 8/25 := by
    unfold midQuery
    rw [distSq_replicate]
    norm_num
  have hfb : findBestMatch sarahMatcher midQuery =
      some (FaceMatch.mk "unknown" (8/25)) := by
    unfold findBestMatch matchDescriptor sarahMatcher
    simp only [List.map_cons, List.map_nil, List.foldl_nil, hd, Option.map]
    norm_num
  refine ⟨rfl, ?_, ?_⟩
  · unfold detectFaces
    simp only [List.filterMap_cons, List.filterMap_nil, hfb, List.map_cons,
      List.map_nil]
    norm_num
  · unfold detectFaces
    simp only [List.filterMap_cons, List.filterMap_nil, hfb]
    norm_num

/-- C4 amended: within one LiveFeed frame pass a single threshold value
(`MATCH_THRESHOLD` = 0.7) is indeed used for the matcher's labeling,
the `isMatch` decision and the box colour — provided no enrolled
student is literally named "unknown" — so in that pass a box is green
exactly when the matcher labelled the detection as matched; but in
`detectFaces` the matcher's labeling threshold is fixed at matcher
construction and can differ from the display threshold, as the
counterexample shows. -/
theorem C4_liveFeed_single_threshold (students priorDetected : List Student)
    (detections : List (List ℚ))
    (hname : ∀ s ∈ students, s.name ≠ "unknown") :
    ∀ p ∈ (runFaceDetectionPass students priorDetected detections).draws,
      p.2 = isMatch MATCH_THRESHOLD_Sq p.1 ∧
      (p.2 = true ↔ p.1.label ≠ "unknown") := by
  intro p hp
  unfold runFaceDetectionPass at hp
  by_cases hemp : (students.filter hasFaceData).isEmpty
  · rw [if_pos hemp] at hp
    simp at hp
  · rw [if_neg hemp] at hp
    simp only [List.mem_map] at hp
    rcases hp with ⟨r, hr, hpr⟩
    rcases List.mem_filterMap.mp hr with ⟨d, _, hfb⟩
    have hlab : ∀ l ∈ (students.filter hasFaceData).map
        (fun s => LabeledFaceDescriptors.mk s.name (s.faceDescriptor.getD [])),
        l.label ≠ "unknown" := by
      intro l hl
      rcases List.mem_map.mp hl with ⟨s, hs, hsl⟩
      rw [← hsl]
      exact hname s (List.mem_of_mem_filter hs)
    have hiff := findBestMatch_label_iff _ d r hfb hlab
    constructor
    · rw [← hpr]
    · rw [← hpr]
      unfold isMatch
      simp only [decide_eq_true_iff]
      exact hiff

set_option maxRecDepth 8192 in
/-- Witness for the C4 amended theorem at the one drawn box of a
concrete pass: its green colour agrees with the isMatch decision and
with the matcher's labeling. -/
theorem C4_witness :
    (FaceMatch.mk "Sarah" 0, true).2 =
      isMatch MATCH_THRESHOLD_Sq (FaceMatch.mk "Sarah" 0, true).1 ∧
    ((FaceMatch.mk "Sarah" 0, true).2 = true ↔
      (FaceMatch.mk "Sarah" 0, true).1.label ≠ "unknown") := by
  have hz : distSq zeroQuery (List.replicate 128 0) = 0 :=
    distSq_self (List.replicate 128 0)
  have hfb : findBestMatch
      (FaceMatcher.mk
        [LabeledFaceDescriptors.mk "Sarah" (List.replicate 128 0)]
        MATCH_THRESHOLD_Sq) zeroQuery = some (FaceMatch.mk "Sarah" 0) := by
    unfold findBestMatch matchDescriptor
    simp only [List.map_cons, List.map_nil, List.foldl_nil, hz, Option.map]
    norm_num [MATCH_THRESHOLD_Sq]
  have hm : isMatch MATCH_THRESHOLD_Sq (FaceMatch.mk "Sarah" 0) = true := by
    unfold isMatch
    norm_num [MATCH_THRESHOLD_Sq]
  have hred : (runFaceDetectionPass [sarah] [] [zeroQuery]).draws =
      ([zeroQuery].filterMap (fun d => findBestMatch
        (FaceMatcher.mk
          [LabeledFaceDescriptors.mk "Sarah" (List.replicate 128 0)]
          MATCH_THRESHOLD_Sq) d)).map
        (fun r => (r, isMatch MATCH_THRESHOLD_Sq r)) := rfl
  have hmem : (FaceMatch.mk "Sarah" 0, true) ∈
      (runFaceDetectionPass [sarah] [] [zeroQuery]).draws := by
    rw [hred]
    simp only [List.filterMap_cons, List.filterMap_nil, hfb, List.map_cons,
      List.map_nil, hm]
    exact List.mem_singleton_self _
  exact C4_liveFeed_single_threshold [sarah] [] [zeroQuery] (by decide)
    (FaceMatch.mk "Sarah" 0, true) hmem

/-- C6: gallery construction retains exactly the input identities with
consent and a 128-length embedding; with zero eligible identities it
returns `null` (`none`) rather than throwing; and a pass against an
empty gallery recognises nobody and emits nothing — every input is
unmatched — without throwing. -/
theorem C6_gallery_filter_and_empty (students : List Student) :
    (∀ s : Student, eligibleForMatcher s = true ↔
      (s.consentGiven = true ∧
        ∃ d, s.faceDescriptor = some d ∧ d.length = 128)) ∧
    (createFaceMatcher students = none ↔
      students.filter eligibleForMatcher = []) ∧
    (∀ m : FaceMatcher, createFaceMatcher students = some m →
      m.labeledDescriptors = (students.filter eligibleForMatcher).map
        (fun s => LabeledFaceDescriptors.mk s.name (s.faceDescriptor.getD []))) ∧
    (∀ (priorDetected : List Student) (detections : List (List ℚ)),
      students.filter hasFaceData = [] →
      runFaceDetectionPass students priorDetected detections =
        PassOutput.mk [] priorDetected []) := by
  refine ⟨?_, ?_, ?_, ?_⟩
  · intro s
    unfold eligibleForMatcher
    rcases hd : s.faceDescriptor with _ | d
    · simp
    · simp [Bool.and_eq_true]
  · unfold createFaceMatcher
    by_cases h : (students.filter eligibleForMatcher).isEmpty
    · simp only [h, if_true]
      simp [List.isEmpty_iff.mp h]
    · simp only [h, if_false]
      simp only [List.isEmpty_iff] at h
      simp [h]
  · intro m hm
    unfold createFaceMatcher at hm
    by_cases h : (students.filter eligibleForMatcher).isEmpty
    · simp [h] at hm
    · simp only [h] at hm
      simp only [Bool.false_eq_true, if_false, Option.some.injEq] at hm
      rw [← hm]
  · intro priorDetected detections h
    unfold runFaceDetectionPass
    rw [h]
    rfl

set_option maxRecDepth 8192 in
/-- Witness for C6: from a roster with one eligible student, one
without consent and one with a wrong-length descriptor,
`createFaceMatcher` keeps exactly the eligible one; with only a
non-consenting student the pass recognises nobody. -/
theorem C6_witness :
    sarahMatcher.labeledDescriptors =
      (([sarah, noConsentStudent, shortDescriptorStudent]).filter
        eligibleForMatcher).map
        (fun s => LabeledFaceDescriptors.mk s.name (s.faceDescriptor.getD [])) ∧
    runFaceDetectionPass [noConsentStudent] [] [midQuery] =
      PassOutput.mk [] [] [] :=
  ⟨(C6_gallery_filter_and_empty
      [sarah, noConsentStudent, shortDescriptorStudent]).2.2.1
      sarahMatcher rfl,
   (C6_gallery_filter_and_empty [noConsentStudent]).2.2.2 [] [midQuery] rfl⟩

set_option maxRecDepth 8192 in
/-- C7: the observe step is not idempotent within a single pass.  The
membership guard checks the `detectedStudents` list captured when the
pass began, so two detections matching the same student within one
pass are both appended and both emit a notification: starting from an
empty observed set, one pass with two detections of `sarah` ends with
her twice in the observed list and two "detected" events, although the
second observation happened with her already observed.  This
contradicts the code's own inline comment ("Add to detected students
if not already in list") and the claim's at-most-one guarantee. -/
theorem C7_duplicate_observation_in_one_pass :
    (runFaceDetectionPass [sarah] [] [zeroQuery, zeroQuery]).detectedStudents =
      [sarah, sarah] ∧
    (runFaceDetectionPass [sarah] [] [zeroQuery, zeroQuery]).events =
      ["Sarah", "Sarah"] := by
  have hz : distSq zeroQuery (List.replicate 128 0) = 0 :=
    distSq_self (List.replicate 128 0)
  have hfb : findBestMatch
      (FaceMatcher.mk
        [LabeledFaceDescriptors.mk "Sarah" (List.replicate 128 0)]
        MATCH_THRESHOLD_Sq) zeroQuery =
      some (FaceMatch.mk "Sarah" 0) := by
    unfold findBestMatch matchDescriptor
    simp only [List.map_cons, List.map_nil, List.foldl_nil, hz, Option.map]
    norm_num [MATCH_THRESHOLD_Sq]
  have hm : isMatch MATCH_THRESHOLD_Sq (FaceMatch.mk "Sarah" 0) = true := by
    unfold isMatch
    norm_num [MATCH_THRESHOLD_Sq]
  have hstep : ∀ acc : List Student × List String,
      passStep [sarah] [] acc (FaceMatch.mk "Sarah" 0) =
        (acc.1 ++ [sarah], acc.2 ++ ["Sarah"]) := by
    intro acc
    unfold passStep
    rw [if_pos]
    · rfl
    · rw [hm]
      rfl
  have hred : runFaceDetectionPass [sarah] [] [zeroQuery, zeroQuery] =
      (let m := FaceMatcher.mk
        [LabeledFaceDescriptors.mk "Sarah" (List.replicate 128 0)]
        MATCH_THRESHOLD_Sq
      let results := [zeroQuery, zeroQuery].filterMap
        (fun d => findBestMatch m d)
      PassOutput.mk
        (results.map (fun r => (r, isMatch MATCH_THRESHOLD_Sq r)))
        (results.foldl (passStep [sarah] []) ([], [])).1
        (results.foldl (passStep [sarah] []) ([], [])).2) := rfl
  have hpass : runFaceDetectionPass [sarah] [] [zeroQuery, zeroQuery] =
      PassOutput.mk
        [(FaceMatch.mk "Sarah" 0, true), (FaceMatch.mk "Sarah" 0, true)]
        [sarah, sarah] ["Sarah", "Sarah"] := by
    rw [hred]
    simp only [List.filterMap_cons, List.filterMap_nil, hfb,
      List.map_cons, List.map_nil, List.foldl_cons, List.foldl_nil, hstep,
      List.nil_append, List.cons_append, List.append_nil, hm]
  rw [hpass]
  exact ⟨rfl, rfl⟩

/-- C2: `handlePostAttendance` on an open session with two observed
students and a bound course closes the session (clears the observed
list, stops tracking) and logs a "posted" message, but appends zero
attendance records to the store: no record with status Present and
capture method Automatic is ever produced, although `addBulkAttendance`
is available for exactly that purpose.  The emitted message claims two
students were posted while the store is untouched. -/
theorem C2_commit_produces_no_records :
    handlePostAttendance (CommitState.mk "course1" [sarah, bob] true []) =
      CommitOutcome.mk (CommitState.mk "course1" [] false []) false
        ["Posted attendance for 2 students"] ∧
    (handlePostAttendance
        (CommitState.mk "course1" [sarah, bob] true [])).state.attendanceRecords
      = [] ∧
    (addBulkAttendance []
      [AttendanceRecordInput.mk "s1" "course1" "t0" "Present" "Automatic",
       AttendanceRecordInput.mk "s2" "course1" "t0" "Present" "Automatic"]
      ["r1", "r2"]).length = 2 := by
  refine ⟨rfl, rfl, rfl⟩

/-- C3: when every real loading attempt fails, `useAlternativeLoader`
calls `createMockModels` — installing the synthetic detection
implementation — and still returns `true` (reported success), and
`areModelsLoaded()` afterwards reports `true` as well: the
degraded/simulated outcome is reported to callers as loaded,
contradicting the claim that Degraded is never reported as Ready. -/
theorem C3_degraded_reported_as_loaded :
    useAlternativeLoader false (FaceApiNets.mk false false false false) =
      (true, FaceApiNets.mk true true true true) ∧
    (useAlternativeLoader false
      (FaceApiNets.mk false false false false)).2.detectAllFacesMocked = true ∧
    areModelsLoaded
      (useAlternativeLoader false (FaceApiNets.mk false false false false)).2 =
      true :=
  ⟨rfl, rfl, rfl⟩

/-- C5: the loop does not enforce at most one pass in flight.  From
the mounted loop: the first tick (captured `false`) starts a pass; the
tick the re-run effect scheduled during that pass (captured `true`)
fires and is dropped; the pass completes, leaving two pending
callbacks whose closures captured `processingFrame = false` — its own
tail reschedule (line 436) and the tick of the effect instance
re-created by the `false` commit (line 441).  Those two fire in the
same animation frame, each passes the stale-closure guard (line 307)
reading the `false` it captured at render time, and each starts a
pass: two detection passes are in flight simultaneously, while the
claim says a new pass never starts before the previous one
completes. -/
theorem C5_overlapping_passes :
    rafRun initialRafState
      [RafEvent.fire, RafEvent.fire, RafEvent.complete,
        RafEvent.fire, RafEvent.fire] =
      RafLoopState.mk true [true, true] 2 ∧
    (rafRun initialRafState
      [RafEvent.fire, RafEvent.fire, RafEvent.complete,
        RafEvent.fire, RafEvent.fire]).inFlight = 2 :=
  ⟨rfl, rfl⟩

/-- C9: if the models are already loaded, a call to initialize returns
success immediately and changes nothing (no fetch); if a load is in
flight, a further call performs no fetch; and along every
failure-free sequence of calls and completions from the initial state,
at most one artifact fetch sequence ever starts. -/
theorem C9_initialize_idempotent :
    (∀ s : InitState, s.modelsLoaded = true →
      initFaceApiStep s InitEvent.call = s ∧
        initCallFastResult s = some true) ∧
    (∀ s : InitState, s.modelsLoading = true →
      (initFaceApiStep s InitEvent.call).fetchCount = s.fetchCount) ∧
    (∀ events : List InitEvent, InitEvent.completeFailure ∉ events →
      (initRun initialInitState events).fetchCount ≤ 1) := by
  refine ⟨?_, ?_, ?_⟩
  · intro s h
    constructor
    · unfold initFaceApiStep
      rw [if_pos h]
    · unfold initCallFastResult
      rw [if_pos h]
  · intro s h
    unfold initFaceApiStep
    by_cases hl : s.modelsLoaded
    · rw [if_pos hl]
    · rw [if_neg hl, if_pos h]
  · intro events hne
    have hinv : initInv (initRun initialInitState events) :=
      initRun_inv events initialInitState hne
        (by unfold initInv initialInitState; simp)
    unfold initInv at hinv
    rw [hinv]
    by_cases h1 : (initRun initialInitState events).modelsLoading <;>
      by_cases h2 : (initRun initialInitState events).modelsLoaded <;>
      simp [h1, h2]

/-- Witness for C9: two calls arriving during one load, then success,
then a third call, cause exactly one fetch; the fast path and the
wait path change nothing. -/
theorem C9_witness :
    (initFaceApiStep (InitState.mk true false 1) InitEvent.call =
        InitState.mk true false 1 ∧
      initCallFastResult (InitState.mk true false 1) = some true) ∧
    (initFaceApiStep (InitState.mk false true 1) InitEvent.call).fetchCount
      = 1 ∧
    (initRun initialInitState
      [InitEvent.call, InitEvent.call, InitEvent.completeSuccess,
        InitEvent.call]).fetchCount ≤ 1 :=
  ⟨C9_initialize_idempotent.1 (InitState.mk true false 1) rfl,
    C9_initialize_idempotent.2.1 (InitState.mk false true 1) rfl,
    C9_initialize_idempotent.2.2
      [InitEvent.call, InitEvent.call, InitEvent.completeSuccess,
        InitEvent.call] (by decide)⟩

/-- C10: whenever the comparator-shuffle is a permutation and the
random count is in range, every student returned by
`mockFaceRecognition` is an element of the input list with
`consentGiven = true`, and at most 3 students are returned — even in
simulated mode, non-consenting students are never reported
detected. -/
theorem C10_mock_respects_consent (students : List Student)
    (shuffle : List Student → List Student) (k : Nat)
    (hshuffle : ∀ l : List Student, (shuffle l).Perm l) (hk : k ≤ 2) :
    (∀ s ∈ mockFaceRecognition students shuffle k,
      s ∈ students ∧ s.consentGiven = true) ∧
    (mockFaceRecognition students shuffle k).length ≤ 3 := by
  constructor
  · intro s hs
    unfold mockFaceRecognition at hs
    have hmem : s ∈ shuffle (students.filter (fun t => t.consentGiven)) :=
      List.take_subset _ _ hs
    have hmem2 : s ∈ students.filter (fun t => t.consentGiven) :=
      ((hshuffle _).mem_iff).mp hmem
    have := List.mem_filter.mp hmem2
    exact ⟨this.1, by simpa using this.2⟩
  · unfold mockFaceRecognition
    calc (List.take (k + 1)
          (shuffle (students.filter (fun t => t.consentGiven)))).length
        ≤ k + 1 := by
          rw [List.length_take]
          exact min_le_left _ _
      _ ≤ 3 := by omega

/-- Witness for C10 with the identity shuffle and count 2. -/
theorem C10_witness :
    (∀ s ∈ mockFaceRecognition [sarah, noConsentStudent] id 1,
      s ∈ [sarah, noConsentStudent] ∧ s.consentGiven = true) ∧
    (mockFaceRecognition [sarah, noConsentStudent] id 1).length ≤ 3 :=
  C10_mock_respects_consent [sarah, noConsentStudent] id 1
    (fun l => List.Perm.refl l) (by decide)

end Attendance
